import Mathlib

/-!
Verification of the API-interception and product-normalization engine of
`scraper/api_scraper.py` (class `ApiScraper`).

The Python code is shallowly embedded: JSON values are an inductive type,
Python dicts are ordered association lists, operations that can raise
(`AttributeError`, `TypeError`) return `Except String`, and URL strings are
handled in their `urlparse`d component form.  Numeric JSON values are
modelled as integers (the claims under study only exercise integral payload
numbers and string prices).  String primitives (strip, replace, search) are
implemented over character lists so that every definition evaluates by
kernel reduction.
-/

set_option maxHeartbeats 1000000

/-- JSON values as intercepted from the API. -/
inductive Json where
  | null
  | bool (b : Bool)
  | num (n : Int)
  | str (s : String)
  | arr (xs : List Json)
  | obj (kvs : List (String × Json))

mutual

/-- Decidable equality on JSON values. -/
def jsonDecEq : (a b : Json) → Decidable (a = b)
  | .null, .null => isTrue rfl
  | .null, .bool _ => isFalse (fun h => nomatch h)
  | .null, .num _ => isFalse (fun h => nomatch h)
  | .null, .str _ => isFalse (fun h => nomatch h)
  | .null, .arr _ => isFalse (fun h => nomatch h)
  | .null, .obj _ => isFalse (fun h => nomatch h)
  | .bool _, .null => isFalse (fun h => nomatch h)
  | .bool a, .bool b =>
    match decEq a b with
    | isTrue h => isTrue (h ▸ rfl)
    | isFalse h => isFalse (fun hh => h (Json.bool.inj hh))
  | .bool _, .num _ => isFalse (fun h => nomatch h)
  | .bool _, .str _ => isFalse (fun h => nomatch h)
  | .bool _, .arr _ => isFalse (fun h => nomatch h)
  | .bool _, .obj _ => isFalse (fun h => nomatch h)
  | .num _, .null => isFalse (fun h => nomatch h)
  | .num _, .bool _ => isFalse (fun h => nomatch h)
  | .num a, .num b =>
    match decEq a b with
    | isTrue h => isTrue (h ▸ rfl)
    | isFalse h => isFalse (fun hh => h (Json.num.inj hh))
  | .num _, .str _ => isFalse (fun h => nomatch h)
  | .num _, .arr _ => isFalse (fun h => nomatch h)
  | .num _, .obj _ => isFalse (fun h => nomatch h)
  | .str _, .null => isFalse (fun h => nomatch h)
  | .str _, .bool _ => isFalse (fun h => nomatch h)
  | .str _, .num _ => isFalse (fun h => nomatch h)
  | .str a, .str b =>
    match decEq a b with
    | isTrue h => isTrue (h ▸ rfl)
    | isFalse h => isFalse (fun hh => h (Json.str.inj hh))
  | .str _, .arr _ => isFalse (fun h => nomatch h)
  | .str _, .obj _ => isFalse (fun h => nomatch h)
  | .arr _, .null => isFalse (fun h => nomatch h)
  | .arr _, .bool _ => isFalse (fun h => nomatch h)
  | .arr _, .num _ => isFalse (fun h => nomatch h)
  | .arr _, .str _ => isFalse (fun h => nomatch h)
  | .arr xs, .arr ys =>
    match jsonDecEqList xs ys with
    | isTrue h => isTrue (h ▸ rfl)
    | isFalse h => isFalse (fun hh => h (Json.arr.inj hh))
  | .arr _, .obj _ => isFalse (fun h => nomatch h)
  | .obj _, .null => isFalse (fun h => nomatch h)
  | .obj _, .bool _ => isFalse (fun h => nomatch h)
  | .obj _, .num _ => isFalse (fun h => nomatch h)
  | .obj _, .str _ => isFalse (fun h => nomatch h)
  | .obj _, .arr _ => isFalse (fun h => nomatch h)
  | .obj xs, .obj ys =>
    match jsonDecEqObj xs ys with
    | isTrue h => isTrue (h ▸ rfl)
    | isFalse h => isFalse (fun hh => h (Json.obj.inj hh))

/-- Decidable equality on JSON arrays. -/
def jsonDecEqList : (xs ys : List Json) → Decidable (xs = ys)
  | [], [] => isTrue rfl
  | [], _ :: _ => isFalse (fun h => nomatch h)
  | _ :: _, [] => isFalse (fun h => nomatch h)
  | x :: xs, y :: ys =>
    match jsonDecEq x y with
    | isTrue h1 =>
      match jsonDecEqList xs ys with
      | isTrue h2 => isTrue (h1 ▸ h2 ▸ rfl)
      | isFalse h2 => isFalse (fun hh => h2 (List.cons.inj hh).2
      )
    | isFalse h1 => isFalse (fun hh => h1 (List.cons.inj hh).1)

/-- Decidable equality on JSON object entry lists. -/
def jsonDecEqObj : (xs ys : List (String × Json)) → Decidable (xs = ys)
  | [], [] => isTrue rfl
  | [], _ :: _ => isFalse (fun h => nomatch h)
  | _ :: _, [] => isFalse (fun h => nomatch h)
  | (k1, v1) :: xs, (k2, v2) :: ys =>
    match decEq k1 k2 with
    | isTrue hk =>
      match jsonDecEq v1 v2 with
      | isTrue hv =>
        match jsonDecEqObj xs ys with
        | isTrue ht => isTrue (hk ▸ hv ▸ ht ▸ rfl)
        | isFalse ht => isFalse (fun hh => ht (List.cons.inj hh).2)
      | isFalse hv => isFalse (fun hh => hv (congrArg Prod.snd (List.cons.inj hh).1))
    | isFalse hk => isFalse (fun hh => hk (congrArg Prod.fst (List.cons.inj hh).1))

end

instance : DecidableEq Json := jsonDecEq

/-- Python truthiness (`if value:`) of a JSON value. -/
def pyTruthy : Json → Bool
  | .null => false
  | .bool b => b
  | .num n => n != 0
  | .str s => !s.data.isEmpty
  | .arr xs => !xs.isEmpty
  | .obj kvs => !kvs.isEmpty

mutual

/-- Canonical form realizing Python `==` on JSON values: `True == 1` and
`False == 0`, applied recursively. -/
def canon : Json → Json
  | .null => .null
  | .bool b => .num (if b then 1 else 0)
  | .num n => .num n
  | .str s => .str s
  | .arr xs => .arr (canonList xs)
  | .obj kvs => .obj (canonObj kvs)

/-- Canonical form of each array element. -/
def canonList : List Json → List Json
  | [] => []
  | x :: xs => canon x :: canonList xs

/-- Canonical form of each object entry value. -/
def canonObj : List (String × Json) → List (String × Json)
  | [] => []
  | (k, v) :: xs => (k, canon v) :: canonObj xs

end

/-- Python `==` between two JSON values. -/
def pyEq (a b : Json) : Bool := decide (canon a = canon b)

/-- Whether a JSON value is hashable in Python (lists and dicts are not). -/
def hashable : Json → Bool
  | .arr _ => false
  | .obj _ => false
  | _ => true

/- ## Python string primitives, over character lists -/

/-- Whitespace characters removed by Python `str.strip()`. -/
def pySpace (c : Char) : Bool :=
  c == ' ' || c == '\t' || c == '\n' || c == '\r' || c == '\x0b' || c == '\x0c'

/-- Python `str.strip()`. -/
def pyStrip (s : String) : String :=
  String.mk (((s.data.dropWhile pySpace).reverse.dropWhile pySpace).reverse)

/-- Python `str.replace` over character lists (left to right,
non-overlapping).  The numeric argument counts characters of a previous
match still to be consumed. -/
def replaceCore (pat rep : List Char) : Nat → List Char → List Char
  | _, [] => []
  | skip + 1, _ :: rest => replaceCore pat rep skip rest
  | 0, c :: rest =>
    if pat ≠ [] ∧ pat.isPrefixOf (c :: rest) then
      rep ++ replaceCore pat rep (pat.length - 1) rest
    else c :: replaceCore pat rep 0 rest

/-- Python `str.replace(pat, rep)` (replace every occurrence). -/
def pyReplace (s pat rep : String) : String :=
  String.mk (replaceCore pat.data rep.data 0 s.data)

/-- Substring containment (`pat in s` on Python strings). -/
def containsSub : List Char → List Char → Bool
  | [], pat => pat.isEmpty
  | s@(_ :: rest), pat => pat.isPrefixOf s || containsSub rest pat

/-- Substring containment on strings. -/
def strContains (s pat : String) : Bool := containsSub s.data pat.data

/-- Lexicographic comparison of character lists (Python string `<`). -/
def ltCharList : List Char → List Char → Bool
  | [], [] => false
  | [], _ :: _ => true
  | _ :: _, [] => false
  | a :: as, b :: bs => if a < b then true else if a == b then ltCharList as bs else false

/-- A single-quote character, used by Python `repr` of strings. -/
def sglQuote : String := String.singleton (Char.ofNat 39)

/-- Join strings with a separator. -/
def joinSep (sep : String) : List String → String
  | [] => ""
  | [x] => x
  | x :: xs => x ++ sep ++ joinSep sep xs

mutual

/-- Python `repr` of a JSON value (escaping inside string quotes is not
modelled; the payload fields under study contain no quotes). -/
def pyRepr : Json → String
  | .null => "None"
  | .bool true => "True"
  | .bool false => "False"
  | .num n => toString n
  | .str s => sglQuote ++ s ++ sglQuote
  | .arr xs => "[" ++ joinSep ", " (pyReprList xs) ++ "]"
  | .obj kvs => "\x7b" ++ joinSep ", " (pyReprObj kvs) ++ "\x7d"

/-- Helper: `repr` of each element of a JSON array. -/
def pyReprList : List Json → List String
  | [] => []
  | x :: xs => pyRepr x :: pyReprList xs

/-- Helper: `repr` of each key/value entry of a JSON object. -/
def pyReprObj : List (String × Json) → List String
  | [] => []
  | (k, v) :: xs => (sglQuote ++ k ++ sglQuote ++ ": " ++ pyRepr v) :: pyReprObj xs

end

/-- Python `str()` of a JSON value. -/
def pyStr : Json → String
  | .str s => s
  | v => pyRepr v

/-- Ordered-dict key lookup (`key in d` / `d[key]`), first occurrence wins. -/
def lookupKey (kvs : List (String × Json)) (k : String) : Option Json :=
  (kvs.find? (fun kv => kv.1 == k)).map (fun kv => kv.2)

/-- Python `value.get(key)`: `None` default on a dict, `AttributeError`
on any non-dict receiver. -/
def dictGet : Json → String → Except String Json
  | .obj kvs, k => .ok ((lookupKey kvs k).getD Json.null)
  | _, _ => .error "AttributeError"

/-- Python `len()` on a JSON value. -/
def pyLen : Json → Except String Nat
  | .arr xs => .ok xs.length
  | .str s => .ok s.data.length
  | .obj kvs => .ok kvs.length
  | _ => .error "TypeError"

/-- Python `<` between JSON values (numbers and booleans compare as
integers, strings lexicographically; other combinations raise). -/
def pyLt : Json → Json → Except String Bool
  | .num a, .num b => .ok (decide (a < b))
  | .num a, .bool b => .ok (decide (a < (if b then (1 : Int) else 0)))
  | .bool a, .num b => .ok (decide ((if a then (1 : Int) else 0) < b))
  | .bool a, .bool b => .ok (decide ((if a then (1 : Int) else 0) < (if b then 1 else 0)))
  | .str a, .str b => .ok (ltCharList a.data b.data)
  | _, _ => .error "TypeError"

/-- Python `value + 1` on a JSON value (ints and bools only). -/
def pyAdd1 : Json → Except String Int
  | .num n => .ok (n + 1)
  | .bool b => .ok ((if b then 1 else 0) + 1)
  | _ => .error "TypeError"

/- ## Product extraction (`_extract_product_from_api_item`) -/

/-- Ranked aliases tried for the product name (source line 497). -/
def name_fields : List String :=
  ["name", "productName", "title", "productTitle", "nombre", "descripcion",
   "description", "productDescription"]

/-- Ranked aliases tried for the product price (source line 507). -/
def price_fields : List String :=
  ["price", "precio", "cost", "costo", "amount", "valor", "unitPrice",
   "unit_price", "salePrice", "sale_price"]

/-- First alias present in the item whose value is truthy (the name loop
breaks only once a truthy value is seen). -/
def firstTruthyField (kvs : List (String × Json)) : List String → Option Json
  | [] => none
  | f :: rest =>
    match lookupKey kvs f with
    | some v => if pyTruthy v then some v else firstTruthyField kvs rest
    | none => firstTruthyField kvs rest

/-- First alias present in the item, regardless of value (the price loop
breaks as soon as an alias is present). -/
def firstPresentField (kvs : List (String × Json)) : List String → Option Json
  | [] => none
  | f :: rest =>
    match lookupKey kvs f with
    | some v => some v
    | none => firstPresentField kvs rest

/-- Characters matched by the price regex `[\d.]+`. -/
def isPriceChar (c : Char) : Bool := c.isDigit || c == '.'

/-- Leftmost match of `re.search` with pattern `[\d.]+`. -/
def reSearchNum (s : String) : Option String :=
  match s.data.dropWhile (fun c => !isPriceChar c) with
  | [] => none
  | l => some (String.mk (l.takeWhile isPriceChar))

/-- Price cleaning (source lines 513-520): strip, remove `Q`, `$` and `,`,
then keep the regex match when one exists, the cleaned string otherwise. -/
def cleanPrice (v : Json) : String :=
  let p := pyStrip (pyStr v)
  let p := pyStrip (pyReplace (pyReplace (pyReplace p "Q" "") "$" "") "," "")
  match reSearchNum p with
  | some m => m
  | none => p

/-- Price resolution: the first present price alias wins; a `None` value
leaves the price unset. -/
def resolvePrice (kvs : List (String × Json)) : Option String :=
  match firstPresentField kvs price_fields with
  | none => none
  | some v => if v == Json.null then none else some (cleanPrice v)

/-- Encode the optional price as the dict value stored on the Product. -/
def priceJson : Option String → Json
  | some p => .str p
  | none => .null

/-- Supplementary Product fields copied opportunistically
(source lines 529-565), in insertion order. -/
def extraFields (kvs : List (String × Json)) : List (String × Json) :=
  (match lookupKey kvs "description" with
   | some d => [("description", Json.str (pyStrip (pyStr d)))]
   | none => []) ++
  (match lookupKey kvs "barcode" with
   | some b => [("barcode", b)]
   | none => []) ++
  (match lookupKey kvs "stock" with
   | some s => [("stock", s)]
   | none => []) ++
  (match lookupKey kvs "offer" with
   | some (Json.obj okvs) =>
     (match lookupKey okvs "price" with
      | some op => if pyTruthy op then [("offer_price", Json.str (pyStr op))] else []
      | none => []) ++
     (match lookupKey okvs "description" with
      | some od => if pyTruthy od then [("offer_description", Json.str (pyStrip (pyStr od)))] else []
      | none => [])
   | _ => []) ++
  (match lookupKey kvs "thumbnail" with
   | some (Json.obj tkvs) =>
     (match lookupKey tkvs "url" with
      | some u => [("image_url", u)]
      | none => [])
   | _ =>
     match lookupKey kvs "images" with
     | some (Json.arr (Json.obj ikvs :: _)) =>
       (match lookupKey ikvs "url" with
        | some u => [("image_url", u)]
        | none => [])
     | _ => []) ++
  (match lookupKey kvs "subcategory" with
   | some (Json.obj skvs) =>
     (match lookupKey skvs "name" with
      | some sn => [("subcategory", Json.str (pyStrip (pyStr sn)))]
      | none => []) ++
     (match lookupKey skvs "category" with
      | some (Json.obj ckvs) =>
        (match lookupKey ckvs "name" with
         | some cn => [("category", Json.str (pyStrip (pyStr cn)))]
         | none => [])
      | _ => [])
   | _ => []) ++
  [("raw_data", Json.obj kvs)]

/-- `_extract_product_from_api_item`: a Product dict, or `None` when the
item is not a mapping or no name alias yields a truthy, non-blank value. -/
def extractProduct : Json → Option Json
  | .obj kvs =>
    match firstTruthyField kvs name_fields with
    | none => none
    | some nv =>
      let name := pyStrip (pyStr nv)
      if name.data.isEmpty then none
      else some (.obj ([("name", Json.str name), ("price", priceJson (resolvePrice kvs))]
                        ++ extraFields kvs))
  | _ => none

/-- Extraction mapped over a candidate item list, keeping successes. -/
def extractList (items : List Json) : List Json := items.filterMap extractProduct

/-- Field lookup on an extracted Product dict. -/
def productField (p : Json) (k : String) : Option Json :=
  match p with
  | .obj kvs => lookupKey kvs k
  | _ => none

example : extractProduct (.obj [("name", .str " A "), ("price", .str "Q123.45")]) =
    some (.obj [("name", .str "A"), ("price", .str "123.45"),
                ("raw_data", .obj [("name", .str " A "), ("price", .str "Q123.45")])]) := by
  decide

example : cleanPrice (.str "$1,234.50") = "1234.50" := by decide

example : cleanPrice (.str "N/A") = "N/A" := by decide

example : extractProduct (.obj [("title", .num 7)]) =
    some (.obj [("name", .str "7"), ("price", .null),
                ("raw_data", .obj [("title", .num 7)])]) := by decide

/- ## Payload parsing (`_parse_api_products`) -/

/-- Container keys searched in order (source line 444). -/
def possible_keys : List String := ["products", "items", "data", "results", "content"]

/-- Size bound used for lookup-based recursion into nested payloads. -/
theorem sizeOf_lookupKey_lt : ∀ (kvs : List (String × Json)) (k : String) (v : Json),
    lookupKey kvs k = some v → sizeOf v < sizeOf (Json.obj kvs) := by
  intro kvs
  induction kvs with
  | nil => intro k v h; simp [lookupKey] at h
  | cons hd tl ih =>
    intro k v h
    unfold lookupKey at h
    cases hk : (hd.1 == k) with
    | false =>
      simp only [List.find?_cons, hk, cond_false] at h
      have hih := ih k v (by unfold lookupKey; exact h)
      simp only [Json.obj.sizeOf_spec, List.cons.sizeOf_spec] at hih ⊢
      omega
    | true =>
      simp [List.find?_cons, hk] at h
      subst h
      obtain ⟨k1, v1⟩ := hd
      simp only [Json.obj.sizeOf_spec, List.cons.sizeOf_spec, Prod.mk.sizeOf_spec]
      omega

mutual

/-- `_parse_api_products`: extract Products from a payload of unknown shape. -/
def parseApiProducts : Json → List Json
  | .arr items => extractList items
  | .obj kvs =>
    let ps := parseKeysLoop kvs possible_keys
    if ps.isEmpty then
      match extractProduct (.obj kvs) with
      | some p => [p]
      | none => []
    else ps
  | _ => []
termination_by data => 8 * sizeOf data + 7
decreasing_by
  have h5 : List.length possible_keys = 5 := rfl
  omega

/-- The loop over container keys: a list value is extracted, a dict value is
parsed recursively, and the loop moves on whenever nothing was produced. -/
def parseKeysLoop (kvs : List (String × Json)) : List String → List Json
  | [] => []
  | k :: rest =>
    match hl : lookupKey kvs k with
    | some (.arr items) =>
      let ps := extractList items
      if ps.isEmpty then parseKeysLoop kvs rest else ps
    | some (.obj kvs2) =>
      let ps := parseApiProducts (.obj kvs2)
      if ps.isEmpty then parseKeysLoop kvs rest else ps
    | _ => parseKeysLoop kvs rest
termination_by keys => 8 * sizeOf (Json.obj kvs) + keys.length
decreasing_by
  all_goals try have hlt := sizeOf_lookupKey_lt _ _ _ hl
  all_goals simp only [List.length_cons]
  all_goals omega

end

/- ## Merging (`scrape`, source lines 344-360) -/

/-- Membership of a barcode in the `seen_barcodes` set, by Python equality. -/
def seenHas (seen : List Json) (b : Json) : Bool := seen.any (fun s => pyEq s b)

/-- The merge loop: walk every product of every list in capture order; an
item is kept iff its barcode is truthy and unseen.  An item that is not a
dict raises `AttributeError`; a truthy unhashable barcode raises `TypeError`
at the set-membership test. -/
def mergeLoop : List Json → List Json → List Json → Except String (List Json × List Json)
  | [], merged, seen => .ok (merged, seen)
  | p :: rest, merged, seen =>
    match dictGet p "barcode" with
    | .error e => .error e
    | .ok barcode =>
      if pyTruthy barcode then
        if hashable barcode then
          if seenHas seen barcode then
            mergeLoop rest merged seen
          else
            mergeLoop rest (merged ++ [p]) (seen ++ [barcode])
        else .error "TypeError"
      else mergeLoop rest merged seen

/-- Decidable equality for fallible results. -/
instance {ε α : Type} [DecidableEq ε] [DecidableEq α] : DecidableEq (Except ε α) :=
  fun a b =>
    match a, b with
    | .ok x, .ok y =>
      match decEq x y with
      | isTrue h => isTrue (h ▸ rfl)
      | isFalse h => isFalse (fun hh => h (Except.ok.inj hh))
    | .ok _, .error _ => isFalse (fun h => nomatch h)
    | .error _, .ok _ => isFalse (fun h => nomatch h)
    | .error x, .error y =>
      match decEq x y with
      | isTrue h => isTrue (h ▸ rfl)
      | isFalse h => isFalse (fun hh => h (Except.error.inj hh))

/-- Merge all collected product lists into one deduplicated list. -/
def mergeProducts (lists : List (List Json)) : Except String (List Json) :=
  (mergeLoop lists.flatten [] []).map (fun r => r.1)

/-- Whether a product item carries barcode `b` (up to Python equality). -/
def barMatches (p b : Json) : Bool :=
  match dictGet p "barcode" with
  | .ok v => pyEq v b
  | .error _ => false

example : mergeProducts [[Json.obj [("name", .str "A")]], [Json.obj [("name", .str "A")]]] =
    .ok [] := by decide

example : mergeProducts
      [[Json.obj [("barcode", .str "X"), ("name", .str "A")]],
       [Json.obj [("barcode", .str "X"), ("name", .str "B")]]] =
    .ok [Json.obj [("barcode", .str "X"), ("name", .str "A")]] := by decide

/- ## Config probing (`scrape`, source lines 229-306) -/

/-- The fixed candidate list of probe configurations (source lines 230-236);
`subcategoryId` is `None` when the URL carried no identifier. -/
def testConfigs (subcategoryId : Json) : List Json :=
  [ .obj [("type", .num 0), ("subcategoryId", subcategoryId)],
    .obj [("type", .num 1), ("subcategoryId", subcategoryId)],
    .obj [("subcategoryId", subcategoryId)],
    .obj [("type", .num 0)],
    .obj [] ]

/-- State threaded through the probing loop. -/
structure ProbeState where
  bestConfig : Option Json
  maxFound : Nat
  appended : List Json
deriving DecidableEq

/-- Product count of a probe response body
(`len(body.get("products", []))`). -/
def prodCount (body : Json) : Except String Nat :=
  match body with
  | .obj kvs => pyLen ((lookupKey kvs "products").getD (Json.arr []))
  | _ => .error "AttributeError"

/-- One iteration of the probing loop: a failed request or an in-body error
is skipped, a count above the running maximum becomes the new best, and a
count above the primary baseline is appended to the capture set. -/
def probeStep (baseline : Nat) (st : ProbeState) (outcome : Json × Option Json) : ProbeState :=
  match outcome.2 with
  | none => st
  | some body =>
    match prodCount body with
    | .error _ => st
    | .ok n =>
      let st1 := if n > st.maxFound then
          { st with maxFound := n, bestConfig := some outcome.1 } else st
      if n > baseline then { st1 with appended := st1.appended ++ [body] } else st1

/-- The probing loop over every candidate outcome, in order. -/
def runProbes (baseline : Nat) (outcomes : List (Json × Option Json)) : ProbeState :=
  outcomes.foldl (probeStep baseline) ⟨none, baseline, []⟩

/-- Whether the best configuration is persisted to the cache file
(`if best_config_found and settings.api_cache_config`, source line 298). -/
def cacheWritten (cacheEnabled : Bool) (st : ProbeState) : Bool :=
  (match st.bestConfig with
   | some c => pyTruthy c
   | none => false) && cacheEnabled

/- ## URL handling (`urllib.parse`) -/

/-- Hex digit value for percent-decoding. -/
def hexDigitVal (c : Char) : Option Nat :=
  if c.isDigit then some (c.toNat - 48)
  else if 97 ≤ c.toNat ∧ c.toNat ≤ 102 then some (c.toNat - 87)
  else if 65 ≤ c.toNat ∧ c.toNat ≤ 70 then some (c.toNat - 55)
  else none

/-- Percent-decoding of an escaped byte sequence, modelled bytewise (the
query parameters under study are ASCII). -/
def pctDecodeList : List Char → List Char
  | [] => []
  | '%' :: a :: b :: rest =>
    (match hexDigitVal a, hexDigitVal b with
     | some ha, some hb => Char.ofNat (16 * ha + hb) :: pctDecodeList rest
     | _, _ => '%' :: pctDecodeList (a :: b :: rest))
  | c :: rest => c :: pctDecodeList rest

/-- Split a character list on a separator character. -/
def splitOnChar (sep : Char) : List Char → List (List Char)
  | [] => [[]]
  | c :: rest =>
    if c == sep then [] :: splitOnChar sep rest
    else
      match splitOnChar sep rest with
      | [] => [[c]]
      | g :: gs => (c :: g) :: gs

/-- Split at the first `=` (Python `split("=", 1)` yielding two parts). -/
def splitFirstEq : List Char → Option (List Char × List Char)
  | [] => none
  | c :: rest =>
    if c == '=' then some ([], rest)
    else
      match splitFirstEq rest with
      | none => none
      | some (a, b) => some (c :: a, b)

/-- Python `urllib.parse.unquote` after `+`-to-space replacement. -/
def unquotePlus (l : List Char) : String :=
  String.mk (pctDecodeList (replaceCore ['+'] [' '] 0 l))

/-- Python `parse_qsl(qs)` with default options: fields without `=` or with
an empty value are dropped. -/
def parseQsl (qs : String) : List (String × String) :=
  (splitOnChar '&' qs.data).filterMap (fun nv =>
    if nv.isEmpty then none
    else
      match splitFirstEq nv with
      | none => none
      | some (name, value) =>
        if value.isEmpty then none
        else some (unquotePlus name, unquotePlus value))

/-- Append a value under a key, growing the value list of an existing key. -/
def dictAppendVal (d : List (String × List String)) (k v : String) :
    List (String × List String) :=
  if d.any (fun kv => kv.1 == k) then
    d.map (fun kv => if kv.1 == k then (kv.1, kv.2 ++ [v]) else kv)
  else d ++ [(k, [v])]

/-- Python `parse_qs(qs)`: grouped multi-dict in first-occurrence order. -/
def parseQs (qs : String) : List (String × List String) :=
  (parseQsl qs).foldl (fun d kv => dictAppendVal d kv.1 kv.2) []

/-- Python dict assignment `params[k] = v`: replace in place, else append. -/
def dictSetParams (d : List (String × List String)) (k : String) (v : List String) :
    List (String × List String) :=
  match d with
  | [] => [(k, v)]
  | (k1, v1) :: rest => if k1 == k then (k1, v) :: rest else (k1, v1) :: dictSetParams rest k v

/-- Characters never quoted by `quote_plus` with empty `safe`. -/
def alwaysSafeChar (c : Char) : Bool :=
  c.isAlpha || c.isDigit || c == '_' || c == '.' || c == '-' || c == '~'

/-- UTF-8 encoding of one character, as byte values. -/
def utf8Bytes (c : Char) : List Nat :=
  let n := c.toNat
  if n < 128 then [n]
  else if n < 2048 then [192 + n / 64, 128 + n % 64]
  else if n < 65536 then [224 + n / 4096, 128 + (n / 64) % 64, 128 + n % 64]
  else [240 + n / 262144, 128 + (n / 4096) % 64, 128 + (n / 64) % 64, 128 + n % 64]

/-- Uppercase hex digit. -/
def hexUpperDigit (n : Nat) : Char := Char.ofNat (if n < 10 then 48 + n else 55 + n)

/-- Percent-encode one byte. -/
def pctEncodeByte (b : Nat) : List Char := ['%', hexUpperDigit (b / 16), hexUpperDigit (b % 16)]

/-- Python `quote_plus` of one character. -/
def quotePlusChar (c : Char) : List Char :=
  if alwaysSafeChar c then [c]
  else if c == ' ' then ['+']
  else (utf8Bytes c).foldr (fun b acc => pctEncodeByte b ++ acc) []

/-- Python `quote_plus` of a string. -/
def quotePlus (s : String) : String :=
  String.mk (s.data.foldr (fun c acc => quotePlusChar c ++ acc) [])

/-- Python `urlencode(params, doseq=True)`. -/
def urlencodeDoseq (d : List (String × List String)) : String :=
  joinSep "&" ((d.map (fun kv => kv.2.map (fun v => quotePlus kv.1 ++ "=" ++ quotePlus v))).flatten)

/-- A URL in `urlparse`d component form; `urlunparse` is the identity on
this representation, `_replace(query=...)` a field update. -/
structure Url where
  scheme : String
  netloc : String
  path : String
  params : String
  query : String
  fragment : String
deriving DecidableEq

/- ## Pagination resolution (`scrape`, source lines 370-399) -/

/-- Pagination metadata keys searched in order (source line 376). -/
def pagination_fields : List String :=
  ["pagination", "pageInfo", "page_info", "paging", "meta"]

/-- First pagination key present in the payload supplies the descriptor. -/
def findPaginationInfo (kvs : List (String × Json)) : List String → Option Json
  | [] => none
  | f :: rest =>
    match lookupKey kvs f with
    | some v => some v
    | none => findPaginationInfo kvs rest

/-- Pagination resolution: returns the descriptor found (if any) and the
next-page URL (if one is synthesized).  A next page requires a truthy
has-next or next-page indicator, a truthy total-page count, and
`current_page < total_pages`; then only the `page` query parameter of the
current URL is rewritten to `current_page + 1`. -/
def resolvePagination (productsData : Option Json) (url : Url) :
    Except String (Option Json × Option Url) :=
  match productsData with
  | some (Json.obj kvs) =>
    if pyTruthy (Json.obj kvs) then
      match findPaginationInfo kvs pagination_fields with
      | none => .ok (none, none)
      | some pag =>
        if pyTruthy pag then
          match pag with
          | Json.obj pkvs =>
            let has_next := (lookupKey pkvs "hasNext").getD
              ((lookupKey pkvs "has_next").getD (Json.bool false))
            let next_page := (lookupKey pkvs "nextPage").getD
              ((lookupKey pkvs "next_page").getD Json.null)
            if pyTruthy has_next || pyTruthy next_page then
              let current_page := (lookupKey pkvs "currentPage").getD
                ((lookupKey pkvs "current_page").getD (Json.num 1))
              let total_pages := (lookupKey pkvs "totalPages").getD
                ((lookupKey pkvs "total_pages").getD Json.null)
              if pyTruthy total_pages then
                match pyLt current_page total_pages with
                | .error e => .error e
                | .ok lt =>
                  if lt then
                    match pyAdd1 current_page with
                    | .error e => .error e
                    | .ok np =>
                      let ps := dictSetParams (parseQs url.query) "page" [toString np]
                      .ok (some pag, some { url with query := urlencodeDoseq ps })
                  else .ok (some pag, none)
              else .ok (some pag, none)
            else .ok (some pag, none)
          | _ => .ok (some pag, none)
        else .ok (some pag, none)
    else .ok (none, none)
  | _ => .ok (none, none)

/- ## The orchestrator (`scrape`, source lines 308-421) -/

/-- One entry of `self.api_responses`. -/
structure CapturedResponse where
  url : String
  method : String
  status : Int
  body : Json
deriving DecidableEq

/-- Selection pass (source lines 310-331): the products payload with the
highest product count, and the last subcategory payload. -/
def selectData (responses : List CapturedResponse) : Option Json × Option Json × Nat :=
  responses.foldl
    (fun acc r =>
      let pd := acc.1
      let sd := acc.2.1
      let mx := acc.2.2
      if strContains r.url "/api/products" || strContains r.url "/api/catalog/subcategory" then
        if pyTruthy r.body then
          if strContains r.url "/api/products" then
            let pl := match r.body with
              | Json.obj kvs => (lookupKey kvs "products").getD (Json.arr [])
              | _ => Json.arr []
            let cnt := match pl with
              | Json.arr xs => xs.length
              | _ => 0
            if cnt > mx then (some r.body, sd, cnt) else (pd, sd, mx)
          else (pd, some r.body, mx)
        else (pd, sd, mx)
      else (pd, sd, mx))
    (none, none, 0)

/-- Collection pass (source lines 334-341): every products list across all
products responses, in capture order. -/
def collectProductLists (responses : List CapturedResponse) : List (List Json) :=
  responses.filterMap (fun r =>
    if strContains r.url "/api/products" then
      match r.body with
      | Json.obj kvs =>
        match lookupKey kvs "products" with
        | some (Json.arr xs) => some xs
        | _ => none
      | _ => none
    else none)

/-- Python dict assignment on a JSON object. -/
def dictSetJson (kvs : List (String × Json)) (k : String) (v : Json) :
    List (String × Json) :=
  match kvs with
  | [] => [(k, v)]
  | (k1, v1) :: rest => if k1 == k then (k1, v) :: rest else (k1, v1) :: dictSetJson rest k v

/-- Replace the primary payload's product list with the merged list
(source lines 358-360). -/
def applyMerged (pdOpt : Option Json) (merged : List Json) : Option Json :=
  match pdOpt with
  | some (Json.obj kvs) =>
    if pyTruthy (Json.obj kvs) then some (Json.obj (dictSetJson kvs "products" (Json.arr merged)))
    else some (Json.obj kvs)
  | other => other

/-- Truthiness of an optional payload (`None` is falsy). -/
def truthyOpt : Option Json → Bool
  | some v => pyTruthy v
  | none => false

/-- Source lines 362-368: parse the primary payload when truthy, else the
subcategory payload when truthy (`_parse_subcategory_data` just delegates
to `_parse_api_products`). -/
def chooseParse (pdOpt sd : Option Json) : List Json :=
  if truthyOpt pdOpt then parseApiProducts (pdOpt.getD Json.null)
  else if truthyOpt sd then parseApiProducts (sd.getD Json.null)
  else []

/-- The orchestrator's result dictionary; `Option` fields model keys absent
from the error-path dictionary. -/
structure PageResult where
  url : Url
  products : List Json
  product_count : Nat
  api_responses : Option Nat
  pagination : Option Json
  next_page : Option Url
  raw_products : Option Json
  raw_subcategory : Option Json
  error : Option String
deriving DecidableEq

/-- The capture-to-result pipeline of `scrape` after response collection:
select, merge, parse, resolve pagination, assemble the result. -/
def scrapePipeline (url : Url) (responses : List CapturedResponse) :
    Except String PageResult := do
  let sel := selectData responses
  let pd0 := sel.1
  let sd := sel.2.1
  let lists := collectProductLists responses
  let pdOpt ←
    if lists.length > 1 then do
      let merged ← mergeProducts lists
      pure (applyMerged pd0 merged)
    else pure pd0
  let products := chooseParse pdOpt sd
  let pagRes ← resolvePagination pdOpt url
  pure { url := url, products := products, product_count := products.length,
         api_responses := some responses.length, pagination := pagRes.1,
         next_page := pagRes.2, raw_products := pdOpt, raw_subcategory := sd,
         error := none }

/-- `scrape`'s outer `try`/`except` (source lines 414-421): any pipeline
exception is converted into an error result carrying the original URL, an
empty product list and a zero count. -/
def scrape (url : Url) (responses : List CapturedResponse) : PageResult :=
  match scrapePipeline url responses with
  | .ok r => r
  | .error e =>
    { url := url, products := [], product_count := 0, api_responses := none,
      pagination := none, next_page := none, raw_products := none,
      raw_subcategory := none, error := some e }

/-- The browser resource produced by `_start_browser`. -/
inductive BrowserHandle where
  | handle
deriving DecidableEq

/-- `_start_browser` (source lines 27-40): a launch failure is logged and
re-raised, a success is returned unchanged. -/
def startBrowser (launch : Except String BrowserHandle) : Except String BrowserHandle :=
  match launch with
  | .ok b => .ok b
  | .error e => .error e

/- ## Response interception (`_setup_api_interception`, source lines 62-103) -/

/-- A raw network response as seen by a handler. -/
structure NetworkResponse where
  url : String
  method : String
  status : Int
  contentType : String
  body : Option Json
deriving DecidableEq

/-- The per-instance interception state: number of live handlers registered
on the page, and the shared `api_responses` buffer. -/
structure InterceptState where
  handlers : Nat
  apiResponses : List CapturedResponse
deriving DecidableEq

/-- `_setup_api_interception`: clears the buffer and registers one more
handler via `page.on("response", ...)` (handlers accumulate; none are
removed). -/
def setupApiInterception (s : InterceptState) : InterceptState :=
  { handlers := s.handlers + 1, apiResponses := [] }

/-- One handler invocation: a host-matching response whose content type
indicates JSON and whose body parses is appended to the buffer; anything
else is dropped. -/
def handleResponse (buf : List CapturedResponse) (r : NetworkResponse) :
    List CapturedResponse :=
  if strContains r.url "msf-api.gta.com.gt" then
    if strContains r.contentType "application/json" ||
        strContains (String.mk (r.contentType.data.map Char.toLower)) "json" then
      match r.body with
      | some b => buf ++ [{ url := r.url, method := r.method, status := r.status, body := b }]
      | none => buf
    else buf
  else buf

/-- Deliver one network response to every live handler in turn. -/
def applyHandlers (r : NetworkResponse) : Nat → List CapturedResponse → List CapturedResponse
  | 0, buf => buf
  | n + 1, buf => applyHandlers r n (handleResponse buf r)

/-- Event delivery on the page: each registered handler runs once. -/
def deliverResponse (s : InterceptState) (r : NetworkResponse) : InterceptState :=
  { s with apiResponses := applyHandlers r s.handlers s.apiResponses }

/-- `n` successive `scrape` calls each run `_setup_api_interception` once. -/
def iterateSetups : Nat → InterceptState → InterceptState
  | 0, s => s
  | n + 1, s => iterateSetups n (setupApiInterception s)

example : parseQs "page=2&minPrice=0" = [("page", ["2"]), ("minPrice", ["0"])] := by decide

example : urlencodeDoseq (dictSetParams (parseQs "page=2&minPrice=0") "page" ["3"]) =
    "page=3&minPrice=0" := by decide

example : resolvePagination
    (some (.obj [("products", .arr []),
                 ("pagination", .obj [("currentPage", .num 2), ("totalPages", .num 5)])]))
    ⟨"https", "www.misuperfresh.com.gt", "/catalog/9", "", "page=2", ""⟩ =
    .ok (some (.obj [("currentPage", .num 2), ("totalPages", .num 5)]), none) := by decide

example : resolvePagination
    (some (.obj [("products", .arr []),
                 ("pagination", .obj [("hasNext", .bool true), ("currentPage", .num 2),
                                      ("totalPages", .num 5)])]))
    ⟨"https", "www.misuperfresh.com.gt", "/catalog/9", "", "page=2", ""⟩ =
    .ok (some (.obj [("hasNext", .bool true), ("currentPage", .num 2), ("totalPages", .num 5)]),
         some ⟨"https", "www.misuperfresh.com.gt", "/catalog/9", "", "page=3", ""⟩) := by decide

/- ## Lemmas about Python equality and truthiness -/

theorem pyTruthy_canon : ∀ x : Json, pyTruthy (canon x) = pyTruthy x := by
  intro x
  match x with
  | .null | .num _ | .str _ => rfl
  | .bool b => cases b <;> rfl
  | .arr xs => cases xs <;> rfl
  | .obj kvs =>
    cases kvs with
    | nil => rfl
    | cons hd tl => obtain ⟨k, v⟩ := hd; rfl

theorem pyEq_refl (b : Json) : pyEq b b = true := by simp [pyEq]

theorem pyEq_canon_eq {v b : Json} (h : pyEq v b = true) : canon v = canon b := by
  simpa [pyEq] using h

theorem pyTruthy_congr {v b : Json} (h : canon v = canon b) : pyTruthy v = pyTruthy b := by
  rw [← pyTruthy_canon v, ← pyTruthy_canon b, h]

theorem pyEq_congr_left {v b : Json} (h : canon v = canon b) (s : Json) :
    pyEq s v = pyEq s b := by
  simp [pyEq, h]

theorem seenHas_congr {v b : Json} (h : canon v = canon b) (l : List Json) :
    seenHas l v = seenHas l b := by
  simp only [seenHas]
  congr 1
  funext s
  exact pyEq_congr_left h s

theorem seenHas_append (l : List Json) (v b : Json) :
    seenHas (l ++ [v]) b = (seenHas l b || pyEq v b) := by
  simp [seenHas, List.any_append]

/- ## Lemmas about the merge loop -/

theorem barMatches_of_get {p v b : Json} (h : dictGet p "barcode" = .ok v) :
    barMatches p b = pyEq v b := by
  simp [barMatches, h]

/-- The fundamental invariant of the merge loop: for each fixed truthy
barcode value, the merged output retains exactly the first occurrence. -/
theorem mergeLoop_filter (b : Json) (hb : pyTruthy b = true) :
    ∀ (items merged seen m s : List Json),
      mergeLoop items merged seen = .ok (m, s) →
      m.filter (fun p => barMatches p b) =
        merged.filter (fun p => barMatches p b) ++
          (if seenHas seen b then [] else (items.filter (fun p => barMatches p b)).take 1) := by
  intro items
  induction items with
  | nil =>
    intro merged seen m s h
    simp only [mergeLoop, Except.ok.injEq, Prod.mk.injEq] at h
    obtain ⟨rfl, rfl⟩ := h
    simp
  | cons p rest ih =>
    intro merged seen m s h
    rw [mergeLoop] at h
    cases hv : dictGet p "barcode" with
    | error e => rw [hv] at h; simp at h
    | ok v =>
      rw [hv] at h
      by_cases htv : pyTruthy v = true
      · by_cases hhv : hashable v = true
        · by_cases hsv : seenHas seen v = true
          · simp only [htv, hhv, hsv, if_true] at h
            have hres := ih merged seen m s h
            by_cases hq : pyEq v b = true
            · have hc := pyEq_canon_eq hq
              have hsb : seenHas seen b = true := by rw [← seenHas_congr hc]; exact hsv
              rw [hres, hsb]
              simp [hsb]
            · have hpb : barMatches p b = false := by
                rw [barMatches_of_get hv]
                exact Bool.eq_false_iff.mpr hq
              rw [hres]
              simp [List.filter_cons, hpb]
          · simp only [htv, hhv, hsv, if_true, if_false, Bool.false_eq_true] at h
            have hres := ih (merged ++ [p]) (seen ++ [v]) m s h
            by_cases hq : pyEq v b = true
            · have hc := pyEq_canon_eq hq
              have hsb : seenHas seen b = false := by
                rw [← seenHas_congr hc]
                exact Bool.eq_false_iff.mpr hsv
              have hsb2 : seenHas (seen ++ [v]) b = true := by
                rw [seenHas_append, hq]
                simp
              have hpb : barMatches p b = true := by rw [barMatches_of_get hv]; exact hq
              rw [hres, hsb2]
              simp [List.filter_append, List.filter_cons, hpb, hsb]
            · have hqf : pyEq v b = false := Bool.eq_false_iff.mpr hq
              have hc2 : seenHas (seen ++ [v]) b = seenHas seen b := by
                rw [seenHas_append, hqf]
                simp
              have hpb : barMatches p b = false := by rw [barMatches_of_get hv]; exact hqf
              rw [hres, hc2]
              simp [List.filter_append, List.filter_cons, hpb]
        · simp only [htv, hhv, if_true, if_false, Bool.false_eq_true] at h
          simp at h
      · simp only [htv, if_false, Bool.false_eq_true] at h
        have hres := ih merged seen m s h
        have hpb : barMatches p b = false := by
          rw [barMatches_of_get hv]
          cases hq : pyEq v b with
          | false => rfl
          | true =>
            exact absurd (by rw [pyTruthy_congr (pyEq_canon_eq hq)]; exact hb) htv
        rw [hres]
        simp [List.filter_cons, hpb]

/-- Every item the merge loop emits carries a truthy barcode. -/
theorem mergeLoop_members :
    ∀ (items merged seen m s : List Json),
      mergeLoop items merged seen = .ok (m, s) →
      (∀ p ∈ merged, ∃ v, dictGet p "barcode" = .ok v ∧ pyTruthy v = true) →
      ∀ p ∈ m, ∃ v, dictGet p "barcode" = .ok v ∧ pyTruthy v = true := by
  intro items
  induction items with
  | nil =>
    intro merged seen m s h hmerged
    simp only [mergeLoop, Except.ok.injEq, Prod.mk.injEq] at h
    obtain ⟨rfl, rfl⟩ := h
    exact hmerged
  | cons p rest ih =>
    intro merged seen m s h hmerged
    rw [mergeLoop] at h
    cases hv : dictGet p "barcode" with
    | error e => rw [hv] at h; simp at h
    | ok v =>
      rw [hv] at h
      by_cases htv : pyTruthy v = true
      · by_cases hhv : hashable v = true
        · by_cases hsv : seenHas seen v = true
          · simp only [htv, hhv, hsv, if_true] at h
            exact ih merged seen m s h hmerged
          · simp only [htv, hhv, hsv, if_true, if_false, Bool.false_eq_true] at h
            refine ih (merged ++ [p]) (seen ++ [v]) m s h ?_
            intro q hq
            rcases List.mem_append.mp hq with hq1 | hq2
            · exact hmerged q hq1
            · rcases List.mem_singleton.mp hq2 with rfl
              exact ⟨v, hv, htv⟩
        · simp only [htv, hhv, if_true, if_false, Bool.false_eq_true] at h
          simp at h
      · simp only [htv, if_false, Bool.false_eq_true] at h
        exact ih merged seen m s h hmerged

/-- Destructing a successful merge into a successful loop run. -/
theorem mergeProducts_ok {lists : List (List Json)} {m : List Json}
    (h : mergeProducts lists = .ok m) :
    ∃ s, mergeLoop lists.flatten [] [] = .ok (m, s) := by
  unfold mergeProducts at h
  cases hl : mergeLoop lists.flatten [] [] with
  | error e => rw [hl] at h; simp [Except.map] at h
  | ok pr =>
    rw [hl] at h
    simp [Except.map] at h
    subst h
    exact ⟨pr.2, rfl⟩

/- ## Claims C1 and C6: merge behaviour -/

/-- C1 (counterexample): an item without a `barcode` field, present in both
collected lists, is removed entirely by the merge — the claim that such
items are always kept is false. -/
theorem c1_counterexample :
    dictGet (Json.obj [("name", Json.str "A"), ("price", Json.str "10")]) "barcode" =
      .ok Json.null ∧
    mergeProducts [[Json.obj [("name", Json.str "A"), ("price", Json.str "10")]],
                   [Json.obj [("name", Json.str "A"), ("price", Json.str "10")]]] =
      .ok [] := by decide

/-- C1 (amended): merging keeps only items whose `barcode` value is present
and truthy; every item lacking a barcode (or carrying a falsy one) is
dropped from the merged list. -/
theorem c1_merge_keeps_only_truthy_barcodes
    (lists : List (List Json)) (m : List Json)
    (hm : mergeProducts lists = .ok m) :
    ∀ p ∈ m, ∃ v, dictGet p "barcode" = .ok v ∧ pyTruthy v = true := by
  obtain ⟨s, hloop⟩ := mergeProducts_ok hm
  exact mergeLoop_members lists.flatten [] [] m s hloop (by intro p hp; simp at hp)

/-- C1 (witness): the amended theorem applied to a concrete merge. -/
theorem c1_witness :
    ∃ v, dictGet (Json.obj [("barcode", Json.str "B1"), ("name", Json.str "A")]) "barcode" =
      .ok v ∧ pyTruthy v = true :=
  c1_merge_keeps_only_truthy_barcodes
    [[Json.obj [("barcode", Json.str "B1"), ("name", Json.str "A")]],
     [Json.obj [("barcode", Json.str "B1"), ("name", Json.str "A")]]]
    [Json.obj [("barcode", Json.str "B1"), ("name", Json.str "A")]]
    (by decide)
    (Json.obj [("barcode", Json.str "B1"), ("name", Json.str "A")])
    (by simp)

/-- C6 (counterexample): two lists each holding an item with the same
falsy barcode value (the empty string) merge to an empty list — not to
exactly one item with that barcode. -/
theorem c6_counterexample :
    dictGet (Json.obj [("barcode", Json.str ""), ("name", Json.str "A")]) "barcode" =
      .ok (Json.str "") ∧
    dictGet (Json.obj [("barcode", Json.str ""), ("name", Json.str "B")]) "barcode" =
      .ok (Json.str "") ∧
    mergeProducts [[Json.obj [("barcode", Json.str ""), ("name", Json.str "A")]],
                   [Json.obj [("barcode", Json.str ""), ("name", Json.str "B")]]] =
      .ok [] := by decide

/-- C6 (amended): when both collected lists contain an item with the same
truthy barcode value, the merged list contains exactly one item with that
barcode, namely the first occurrence from the earliest-processed list. -/
theorem c6_barcode_dedup_amended
    (l1 l2 : List Json) (x1 x2 b : Json) (m : List Json)
    (h1 : x1 ∈ l1) (h2 : x2 ∈ l2)
    (hb1 : dictGet x1 "barcode" = .ok b) (hb2 : dictGet x2 "barcode" = .ok b)
    (hb : pyTruthy b = true)
    (hm : mergeProducts [l1, l2] = .ok m) :
    m.countP (fun p => barMatches p b) = 1 ∧
    ∃ y, y ∈ l1 ∧ barMatches y b = true ∧
      m.filter (fun p => barMatches p b) = [y] := by
  obtain ⟨s, hloop⟩ := mergeProducts_ok hm
  have hflat : ([l1, l2] : List (List Json)).flatten = l1 ++ l2 := by simp
  rw [hflat] at hloop
  have hfil := mergeLoop_filter b hb (l1 ++ l2) [] [] m s hloop
  have hseen : seenHas [] b = false := rfl
  rw [hseen] at hfil
  simp only [List.filter_nil, List.nil_append, Bool.false_eq_true, if_false] at hfil
  have hpbx : barMatches x1 b = true := by rw [barMatches_of_get hb1]; exact pyEq_refl b
  have hmem : x1 ∈ l1.filter (fun p => barMatches p b) := List.mem_filter.mpr ⟨h1, hpbx⟩
  cases hfl : l1.filter (fun p => barMatches p b) with
  | nil => rw [hfl] at hmem; simp at hmem
  | cons y ys =>
    have hy1 : y ∈ l1 := List.mem_of_mem_filter (p := fun p => barMatches p b)
      (by rw [hfl]; exact List.mem_cons_self y ys)
    have hyb : barMatches y b = true := List.of_mem_filter (p := fun p => barMatches p b)
      (by rw [hfl]; exact List.mem_cons_self y ys)
    have hfil2 : m.filter (fun p => barMatches p b) = [y] := by
      rw [hfil, List.filter_append, hfl]
      simp
    refine ⟨?_, y, hy1, hyb, hfil2⟩
    rw [List.countP_eq_length_filter, hfil2]
    rfl

/-- C6 (witness): the amended theorem applied to two concrete lists sharing
the truthy barcode `"X"`. -/
theorem c6_witness :
    ([Json.obj [("barcode", Json.str "X"), ("name", Json.str "A")]].countP
        (fun p => barMatches p (Json.str "X"))) = 1 ∧
    ∃ y, y ∈ [Json.obj [("barcode", Json.str "X"), ("name", Json.str "A")]] ∧
      barMatches y (Json.str "X") = true ∧
      ([Json.obj [("barcode", Json.str "X"), ("name", Json.str "A")]].filter
          (fun p => barMatches p (Json.str "X"))) = [y] :=
  c6_barcode_dedup_amended
    [Json.obj [("barcode", Json.str "X"), ("name", Json.str "A")]]
    [Json.obj [("barcode", Json.str "X"), ("name", Json.str "B")]]
    (Json.obj [("barcode", Json.str "X"), ("name", Json.str "A")])
    (Json.obj [("barcode", Json.str "X"), ("name", Json.str "B")])
    (Json.str "X")
    [Json.obj [("barcode", Json.str "X"), ("name", Json.str "A")]]
    (by simp) (by simp) (by decide) (by decide) (by decide) (by decide)

/- ## Claim C7: a Product requires a non-empty name -/

/-- C7: every extracted Product carries as its name the non-empty trimmed
value of the first truthy name alias; an item without any truthy name alias,
or that is not a mapping, produces no Product. -/
theorem c7_product_requires_name (item : Json) :
    (∀ p, extractProduct item = some p →
      ∃ kvs nv, item = Json.obj kvs ∧ firstTruthyField kvs name_fields = some nv ∧
        productField p "name" = some (Json.str (pyStrip (pyStr nv))) ∧
        (pyStrip (pyStr nv)).data ≠ []) ∧
    (∀ kvs, item = Json.obj kvs → firstTruthyField kvs name_fields = none →
      extractProduct item = none) ∧
    ((∀ kvs, item ≠ Json.obj kvs) → extractProduct item = none) := by
  refine ⟨?_, ?_, ?_⟩
  · intro p hp
    match item with
    | .null | .bool _ | .num _ | .str _ | .arr _ => simp [extractProduct] at hp
    | .obj kvs =>
      cases hft : firstTruthyField kvs name_fields with
      | none => simp [extractProduct, hft] at hp
      | some nv =>
        simp only [extractProduct, hft] at hp
        by_cases hemp : (pyStrip (pyStr nv)).data.isEmpty = true
        · simp [hemp] at hp
        · rw [Bool.not_eq_true] at hemp
          simp only [hemp, Bool.false_eq_true, if_false, Option.some.injEq] at hp
          subst hp
          refine ⟨kvs, nv, rfl, hft, ?_, ?_⟩
          · simp [productField, lookupKey, List.find?_cons]
          · intro hnil
            rw [hnil] at hemp
            simp at hemp
  · intro kvs hitem hft
    subst hitem
    simp [extractProduct, hft]
  · intro hno
    match item with
    | .obj kvs => exact absurd rfl (hno kvs)
    | .null | .bool _ | .num _ | .str _ | .arr _ => simp [extractProduct]

/-- C7 (witness): the theorem applied to a concrete one-field item. -/
theorem c7_witness :
    ∃ kvs nv, (Json.obj [("name", Json.str "A")]) = Json.obj kvs ∧
      firstTruthyField kvs name_fields = some nv ∧
      productField (Json.obj [("name", Json.str "A"), ("price", Json.null),
        ("raw_data", Json.obj [("name", Json.str "A")])]) "name" =
        some (Json.str (pyStrip (pyStr nv))) ∧
      (pyStrip (pyStr nv)).data ≠ [] :=
  (c7_product_requires_name (Json.obj [("name", Json.str "A")])).1 _ (by decide)

/- ## Claim C3: price cleaning -/

/-- C3 (counterexample): when the first present price alias holds `"N/A"`,
the Product is emitted with its price equal to the string `"N/A"` — the
price is not omitted. -/
theorem c3_counterexample :
    extractProduct (Json.obj [("name", Json.str "X"), ("price", Json.str "N/A")]) =
      some (Json.obj [("name", Json.str "X"), ("price", Json.str "N/A"),
        ("raw_data", Json.obj [("name", Json.str "X"), ("price", Json.str "N/A")])]) ∧
    productField (Json.obj [("name", Json.str "X"), ("price", Json.str "N/A"),
        ("raw_data", Json.obj [("name", Json.str "X"), ("price", Json.str "N/A")])]) "price" =
      some (Json.str "N/A") := by decide

/-- C3 (amended): the extracted price is the cleaned form of the first
present price alias; cleaning maps `"Q123.45"` to `"123.45"` and
`"$1,234.50"` to `"1234.50"`, while `"N/A"` has no numeric match and the
cleaned string `"N/A"` itself is kept as the price. -/
theorem c3_price_cleaning_amended :
    (∀ (kvs : List (String × Json)) (nv : Json) (s : String) (p : Json),
      firstTruthyField kvs name_fields = some nv →
      (pyStrip (pyStr nv)).data.isEmpty = false →
      firstPresentField kvs price_fields = some (Json.str s) →
      extractProduct (Json.obj kvs) = some p →
      productField p "price" = some (Json.str (cleanPrice (Json.str s)))) ∧
    cleanPrice (Json.str "Q123.45") = "123.45" ∧
    cleanPrice (Json.str "$1,234.50") = "1234.50" ∧
    cleanPrice (Json.str "N/A") = "N/A" := by
  refine ⟨?_, by decide, by decide, by decide⟩
  intro kvs nv s p hft hemp hpf hp
  have hpr : resolvePrice kvs = some (cleanPrice (Json.str s)) := by
    simp [resolvePrice, hpf]
  simp only [extractProduct, hft, hemp, Bool.false_eq_true, if_false, hpr,
    priceJson, Option.some.injEq] at hp
  subst hp
  simp [productField, lookupKey, List.find?_cons]

/-- C3 (witness): the amended theorem applied to a concrete item whose
price alias holds `"Q123.45"`. -/
theorem c3_witness :
    productField (Json.obj [("name", Json.str "A"), ("price", Json.str "123.45"),
        ("raw_data", Json.obj [("name", Json.str "A"), ("price", Json.str "Q123.45")])])
      "price" = some (Json.str (cleanPrice (Json.str "Q123.45"))) :=
  (c3_price_cleaning_amended).1
    [("name", Json.str "A"), ("price", Json.str "Q123.45")]
    (Json.str "A") "Q123.45"
    (Json.obj [("name", Json.str "A"), ("price", Json.str "123.45"),
        ("raw_data", Json.obj [("name", Json.str "A"), ("price", Json.str "Q123.45")])])
    (by decide) (by decide) (by decide) (by decide)

/- ## Claim C4: payloads without a recognized container key -/

/-- A key loop over keys absent from the payload produces nothing. -/
theorem parseKeysLoop_none (kvs : List (String × Json)) :
    ∀ keys : List String, (∀ k ∈ keys, lookupKey kvs k = none) →
      parseKeysLoop kvs keys = [] := by
  intro keys
  induction keys with
  | nil => intro _; rw [parseKeysLoop]
  | cons k rest ih =>
    intro h
    have hk : lookupKey kvs k = none := h k (by simp)
    have hrest : ∀ k2 ∈ rest, lookupKey kvs k2 = none := fun k2 hk2 => h k2 (by simp [hk2])
    simp only [parseKeysLoop]
    split
    · rename_i items heq
      rw [hk] at heq
      exact Option.noConfusion heq
    · rename_i kvs2 heq
      rw [hk] at heq
      exact Option.noConfusion heq
    · exact ih hrest

/-- C4 (counterexample): a mapping with none of the recognized container
keys but with a `name` field parses to one Product, not to the empty
list. -/
theorem c4_counterexample :
    (∀ k ∈ possible_keys, lookupKey [("name", Json.str "x")] k = none) ∧
    parseApiProducts (Json.obj [("name", Json.str "x")]) =
      [Json.obj [("name", Json.str "x"), ("price", Json.null),
                 ("raw_data", Json.obj [("name", Json.str "x")])]] := by
  refine ⟨by decide, ?_⟩
  have h0 : parseKeysLoop [("name", Json.str "x")] possible_keys = [] :=
    parseKeysLoop_none _ _ (by decide)
  simp only [parseApiProducts, h0]
  decide

/-- C4 (amended): for a mapping with none of the recognized container keys,
`_parse_api_products` returns the extraction of the mapping treated as a
single item (so the empty list exactly when no name alias yields a value),
and never raises — the function is total. -/
theorem c4_no_container_key_amended (kvs : List (String × Json))
    (hnone : ∀ k ∈ possible_keys, lookupKey kvs k = none) :
    parseApiProducts (Json.obj kvs) = (extractProduct (Json.obj kvs)).toList ∧
    (extractProduct (Json.obj kvs) = none → parseApiProducts (Json.obj kvs) = []) := by
  have h0 := parseKeysLoop_none kvs possible_keys hnone
  constructor
  · simp only [parseApiProducts, h0, List.isEmpty_nil, if_true]
    cases he : extractProduct (Json.obj kvs) <;> simp [Option.toList, he]
  · intro he
    simp only [parseApiProducts, h0, List.isEmpty_nil, if_true, he]

/-- C4 (witness): the amended theorem applied to a nameless mapping. -/
theorem c4_witness :
    parseApiProducts (Json.obj [("foo", Json.num 1)]) = [] :=
  (c4_no_container_key_amended [("foo", Json.num 1)] (by decide)).2 (by decide)

/- ## Claim C5: container key search order -/

/-- Whether the key loop passes over a container key without yielding
products: the key is absent, its value is neither a sequence nor a mapping,
its sequence value extracts nothing, or its mapping value parses to
nothing. -/
def keySkipped (kvs : List (String × Json)) (k : String) : Bool :=
  match lookupKey kvs k with
  | none => true
  | some (Json.arr items) => (extractList items).isEmpty
  | some (Json.obj kvs2) => (parseApiProducts (Json.obj kvs2)).isEmpty
  | some _ => true

/-- The key loop ignores a leading block of passed-over keys. -/
theorem parseKeysLoop_skip (kvs : List (String × Json)) :
    ∀ (pre post : List String), (∀ k ∈ pre, keySkipped kvs k = true) →
      parseKeysLoop kvs (pre ++ post) = parseKeysLoop kvs post := by
  intro pre
  induction pre with
  | nil => intro post _; rfl
  | cons k rest ih =>
    intro post h
    have hk := h k (by simp)
    have hrest : ∀ k2 ∈ rest, keySkipped kvs k2 = true := fun k2 hk2 => h k2 (by simp [hk2])
    simp only [List.cons_append, parseKeysLoop]
    split
    · rename_i items heq
      have hempty : (extractList items).isEmpty = true := by
        simpa [keySkipped, heq] using hk
      simp only [hempty, if_true]
      exact ih post hrest
    · rename_i kvs2 heq
      have hempty : (parseApiProducts (Json.obj kvs2)).isEmpty = true := by
        simpa [keySkipped, heq] using hk
      simp only [hempty, if_true]
      exact ih post hrest
    · exact ih post hrest

/-- Evaluation of one key-loop step whose key holds a sequence. -/
theorem parseKeysLoop_cons_arr (kvs : List (String × Json)) (k : String)
    (rest : List String) (items : List Json)
    (hl2 : lookupKey kvs k = some (Json.arr items)) :
    parseKeysLoop kvs (k :: rest) =
      if (extractList items).isEmpty then parseKeysLoop kvs rest else extractList items := by
  simp only [parseKeysLoop]
  split
  · rename_i items2 heq
    rw [hl2] at heq
    injection heq with h1
    injection h1 with h2
    subst h2
    rfl
  · rename_i kvs2 heq
    rw [hl2] at heq
    injection heq with h1
    exact absurd h1 (by simp)
  · rename_i hn1 hn2
    exact (hn1 items hl2).elim

/-- The parser's behaviour when the first non-passed-over container key
holds a sequence whose extraction is non-empty: that extraction is the
result. -/
theorem parseApiProducts_first_arr (kvs : List (String × Json))
    (pre post : List String) (k : String) (items : List Json)
    (hkeys : possible_keys = pre ++ k :: post)
    (hskip : ∀ k2 ∈ pre, keySkipped kvs k2 = true)
    (hlook : lookupKey kvs k = some (Json.arr items))
    (hne : extractList items ≠ []) :
    parseApiProducts (Json.obj kvs) = extractList items := by
  have hnemp : (extractList items).isEmpty = false := by
    cases hx : extractList items with
    | nil => exact absurd hx hne
    | cons a l => rfl
  have hloop : parseKeysLoop kvs possible_keys = extractList items := by
    rw [hkeys, parseKeysLoop_skip kvs pre (k :: post) hskip,
        parseKeysLoop_cons_arr kvs k post items hlook, hnemp]
    simp
  simp only [parseApiProducts, hloop, hnemp, Bool.false_eq_true, if_false]

/-- C5 (counterexample): `"products"` is present with a sequence value, yet
the returned Product comes from under the later `"items"` key, because the
`"products"` sequence yielded no products — the first sequence-valued key
does not always supply the result. -/
theorem c5_counterexample :
    lookupKey [("products", Json.arr [Json.obj [("x", Json.num 1)]]),
               ("items", Json.arr [Json.obj [("name", Json.str "A")]])] "products" =
      some (Json.arr [Json.obj [("x", Json.num 1)]]) ∧
    parseApiProducts (Json.obj [("products", Json.arr [Json.obj [("x", Json.num 1)]]),
                                ("items", Json.arr [Json.obj [("name", Json.str "A")]])]) =
      [Json.obj [("name", Json.str "A"), ("price", Json.null),
                 ("raw_data", Json.obj [("name", Json.str "A")])]] := by
  refine ⟨by decide, ?_⟩
  rw [parseApiProducts_first_arr
    [("products", Json.arr [Json.obj [("x", Json.num 1)]]),
     ("items", Json.arr [Json.obj [("name", Json.str "A")]])]
    ["products"] ["data", "results", "content"] "items"
    [Json.obj [("name", Json.str "A")]]
    (by decide) (by decide) (by decide) (by decide)]
  decide

/-- C5 (amended): the candidate items are supplied by the first container
key, in the fixed order, that holds a sequence whose extraction yields at
least one Product; container keys that are absent, non-sequence scalars, or
sequences and mappings yielding no products are passed over. -/
theorem c5_container_key_order_amended
    (kvs : List (String × Json)) (pre post : List String) (k : String) (items : List Json)
    (hkeys : possible_keys = pre ++ k :: post)
    (hskip : ∀ k2 ∈ pre, keySkipped kvs k2 = true)
    (hlook : lookupKey kvs k = some (Json.arr items))
    (hne : extractList items ≠ []) :
    parseApiProducts (Json.obj kvs) = extractList items :=
  parseApiProducts_first_arr kvs pre post k items hkeys hskip hlook hne

/-- C5 (witness): the amended theorem applied to a payload whose first
container key immediately yields a Product. -/
theorem c5_witness :
    parseApiProducts (Json.obj [("products", Json.arr [Json.obj [("name", Json.str "P")]])]) =
      extractList [Json.obj [("name", Json.str "P")]] :=
  c5_container_key_order_amended
    [("products", Json.arr [Json.obj [("name", Json.str "P")]])]
    [] ["items", "data", "results", "content"] "products"
    [Json.obj [("name", Json.str "P")]]
    (by decide) (by decide) (by decide) (by decide)

/- ## Claim C2: pagination resolution -/

/-- C2 (counterexample): a pagination descriptor carrying only
`currentPage`/`totalPages` — with no truthy `hasNext`/`nextPage` indicator —
resolves to no next page, not to a `page=3` URL as claimed. -/
theorem c2_counterexample :
    resolvePagination
      (some (Json.obj [("products", Json.arr [Json.obj [("name", Json.str "A")]]),
        ("pagination", Json.obj [("currentPage", Json.num 2), ("totalPages", Json.num 5)])]))
      ⟨"https", "www.misuperfresh.com.gt", "/catalog/9", "", "page=2", ""⟩ =
    .ok (some (Json.obj [("currentPage", Json.num 2), ("totalPages", Json.num 5)]), none) := by
  decide

/-- C2 (amended): when the descriptor additionally carries a truthy
has-next indicator, `{"hasNext": true, "currentPage": 2, "totalPages": 5}`
with current URL `.../catalog/9?page=2` resolves to the same URL with its
`page` query parameter set to `3` and every other query parameter
unchanged; a descriptor with `currentPage` equal to `totalPages` resolves
to no next page, with or without a has-next indicator. -/
theorem c2_pagination_resolution_amended :
    resolvePagination
      (some (Json.obj [("products", Json.arr [Json.obj [("name", Json.str "A")]]),
        ("pagination", Json.obj [("hasNext", Json.bool true), ("currentPage", Json.num 2),
          ("totalPages", Json.num 5)])]))
      ⟨"https", "www.misuperfresh.com.gt", "/catalog/9", "", "page=2", ""⟩ =
    .ok (some (Json.obj [("hasNext", Json.bool true), ("currentPage", Json.num 2),
          ("totalPages", Json.num 5)]),
         some ⟨"https", "www.misuperfresh.com.gt", "/catalog/9", "", "page=3", ""⟩) ∧
    resolvePagination
      (some (Json.obj [("products", Json.arr [Json.obj [("name", Json.str "A")]]),
        ("pagination", Json.obj [("hasNext", Json.bool true), ("currentPage", Json.num 2),
          ("totalPages", Json.num 5)])]))
      ⟨"https", "www.misuperfresh.com.gt", "/catalog/9", "",
        "page=2&minPrice=0&maxPrice=225", ""⟩ =
    .ok (some (Json.obj [("hasNext", Json.bool true), ("currentPage", Json.num 2),
          ("totalPages", Json.num 5)]),
         some ⟨"https", "www.misuperfresh.com.gt", "/catalog/9", "",
           "page=3&minPrice=0&maxPrice=225", ""⟩) ∧
    resolvePagination
      (some (Json.obj [("products", Json.arr [Json.obj [("name", Json.str "A")]]),
        ("pagination", Json.obj [("totalPages", Json.num 3), ("currentPage", Json.num 3)])]))
      ⟨"https", "www.misuperfresh.com.gt", "/catalog/9", "", "page=3", ""⟩ =
    .ok (some (Json.obj [("totalPages", Json.num 3), ("currentPage", Json.num 3)]), none) ∧
    resolvePagination
      (some (Json.obj [("products", Json.arr [Json.obj [("name", Json.str "A")]]),
        ("pagination", Json.obj [("hasNext", Json.bool true), ("totalPages", Json.num 3),
          ("currentPage", Json.num 3)])]))
      ⟨"https", "www.misuperfresh.com.gt", "/catalog/9", "", "page=3", ""⟩ =
    .ok (some (Json.obj [("hasNext", Json.bool true), ("totalPages", Json.num 3),
          ("currentPage", Json.num 3)]), none) := by
  refine ⟨by decide, by decide, by decide, by decide⟩

/- ## Claim C8: probe tracking and cache persistence -/

/-- A probe step never removes already-appended payloads. -/
theorem probeStep_appended_mono (baseline : Nat) (st : ProbeState)
    (o : Json × Option Json) :
    ∀ x ∈ st.appended, x ∈ (probeStep baseline st o).appended := by
  intro x hx
  rcases o with ⟨cfg, res⟩
  cases res with
  | none => exact hx
  | some body =>
    simp only [probeStep]
    cases hpc : prodCount body with
    | error e => exact hx
    | ok n =>
      by_cases h1 : n > st.maxFound <;> by_cases h2 : n > baseline <;>
        simp [h1, h2, List.mem_append, hx]

/-- The probing loop never removes already-appended payloads. -/
theorem foldl_appended_mono (baseline : Nat) :
    ∀ (outcomes : List (Json × Option Json)) (st : ProbeState) (x : Json),
      x ∈ st.appended → x ∈ (outcomes.foldl (probeStep baseline) st).appended := by
  intro outcomes
  induction outcomes with
  | nil => intro st x hx; exact hx
  | cons o os ih =>
    intro st x hx
    exact ih (probeStep baseline st o) x (probeStep_appended_mono baseline st o x hx)

/-- Payload retention under the probing loop, generalized over the starting
state. -/
theorem foldl_appended_of_gt (baseline : Nat) :
    ∀ (outcomes : List (Json × Option Json)) (st : ProbeState) (cfg body : Json) (n : Nat),
      (cfg, some body) ∈ outcomes → prodCount body = .ok n → n > baseline →
      body ∈ (outcomes.foldl (probeStep baseline) st).appended := by
  intro outcomes
  induction outcomes with
  | nil => intro st cfg body n h; simp at h
  | cons o os ih =>
    intro st cfg body n hmem hpc hgt
    rcases List.mem_cons.mp hmem with heq | hmem2
    · refine foldl_appended_mono baseline os _ body ?_
      rw [← heq]
      simp only [probeStep, hpc]
      by_cases hmx : n > st.maxFound <;> simp [hmx, hgt, List.mem_append]
    · exact ih (probeStep baseline st o) cfg body n hmem2 hpc hgt

/-- When no probe ever exceeds the running maximum, no best config is ever
recorded. -/
theorem foldl_no_best (baseline : Nat) :
    ∀ (outcomes : List (Json × Option Json)) (st : ProbeState),
      (∀ pr ∈ outcomes, ∀ body n, pr.2 = some body → prodCount body = .ok n → n ≤ baseline) →
      st.bestConfig = none → st.maxFound = baseline →
      (outcomes.foldl (probeStep baseline) st).bestConfig = none := by
  intro outcomes
  induction outcomes with
  | nil => intro st _ hb _; exact hb
  | cons o os ih =>
    intro st h hb hm
    have hstep : (probeStep baseline st o).bestConfig = none ∧
        (probeStep baseline st o).maxFound = baseline := by
      rcases o with ⟨cfg, res⟩
      cases res with
      | none => exact ⟨hb, hm⟩
      | some body =>
        simp only [probeStep]
        cases hpc : prodCount body with
        | error e => exact ⟨hb, hm⟩
        | ok n =>
          have hle : n ≤ baseline := h (cfg, some body) (by simp) body n rfl hpc
          have hmx : ¬ n > st.maxFound := by omega
          have hgt : ¬ n > baseline := by omega
          simp [hpc, hmx, hgt, hb, hm]
    exact ih (probeStep baseline st o) (fun pr hpr => h pr (by simp [hpr])) hstep.1 hstep.2

/-- C8 (amended): a probe exceeding the primary baseline has its payload
appended; a probe exceeding the running maximum is recorded as the new
best; when no probe exceeds the baseline there is no cache write; and a
recorded best is persisted when caching is enabled provided the best config
is truthy (a non-empty dict) — the empty no-filter config is never
persisted. -/
theorem c8_probe_tracking_amended (baseline : Nat) (outcomes : List (Json × Option Json))
    (cacheEnabled : Bool) :
    (∀ cfg body n, (cfg, some body) ∈ outcomes → prodCount body = .ok n → n > baseline →
      body ∈ (runProbes baseline outcomes).appended) ∧
    (∀ (st : ProbeState) (cfg body : Json) (n : Nat), prodCount body = .ok n →
      n > st.maxFound →
      (probeStep baseline st (cfg, some body)).bestConfig = some cfg ∧
      (probeStep baseline st (cfg, some body)).maxFound = n) ∧
    ((∀ pr ∈ outcomes, ∀ body n, pr.2 = some body → prodCount body = .ok n → n ≤ baseline) →
      cacheWritten cacheEnabled (runProbes baseline outcomes) = false) ∧
    (∀ c, (runProbes baseline outcomes).bestConfig = some c → pyTruthy c = true →
      cacheEnabled = true → cacheWritten cacheEnabled (runProbes baseline outcomes) = true) := by
  refine ⟨?_, ?_, ?_, ?_⟩
  · intro cfg body n hmem hpc hgt
    exact foldl_appended_of_gt baseline outcomes _ cfg body n hmem hpc hgt
  · intro st cfg body n hpc hgt
    simp only [probeStep, hpc]
    by_cases h2 : n > baseline <;> simp [hgt, h2]
  · intro h
    have hbest := foldl_no_best baseline outcomes ⟨none, baseline, []⟩ h rfl rfl
    simp [cacheWritten, runProbes] at hbest ⊢
    simp [hbest]
  · intro c hbest htruthy henabled
    simp [cacheWritten, hbest, htruthy, henabled]

/-- C8 (counterexample): a probe whose payload strictly beats the baseline
with the empty no-filter candidate is recorded as the new best, yet — with
caching enabled — no cache write happens, because the empty dict is falsy. -/
theorem c8_counterexample :
    (runProbes 3 [(Json.obj [], some (Json.obj [("products",
        Json.arr (List.replicate 12 (Json.obj [("barcode", Json.str "b")])))]))]).bestConfig =
      some (Json.obj []) ∧
    Json.obj [] ∈ testConfigs Json.null ∧
    cacheWritten true
      (runProbes 3 [(Json.obj [], some (Json.obj [("products",
        Json.arr (List.replicate 12 (Json.obj [("barcode", Json.str "b")])))]))]) = false := by
  decide

/-- C8 (witness): the amended theorem applied to a truthy candidate that
beats a baseline of 3 with 12 products. -/
theorem c8_witness :
    Json.obj [("products", Json.arr (List.replicate 12 (Json.obj [("barcode", Json.str "b")])))] ∈
      (runProbes 3 [(Json.obj [("type", Json.num 0)], some (Json.obj [("products",
        Json.arr (List.replicate 12 (Json.obj [("barcode", Json.str "b")])))]))]).appended ∧
    cacheWritten true
      (runProbes 3 [(Json.obj [("type", Json.num 0)], some (Json.obj [("products",
        Json.arr (List.replicate 12 (Json.obj [("barcode", Json.str "b")])))]))]) = true :=
  ⟨(c8_probe_tracking_amended 3 _ true).1 (Json.obj [("type", Json.num 0)]) _ 12
      (by simp) (by decide) (by decide),
   (c8_probe_tracking_amended 3 _ true).2.2.2 (Json.obj [("type", Json.num 0)])
      (by decide) (by decide) rfl⟩

/- ## Claim C9: error containment in the orchestrator -/

/-- C9: every pipeline exception is converted into an error PageResult
carrying the original URL, an empty product list, a zero count and the
error annotation; a successful pipeline result is returned unchanged (and
never carries an error annotation); only browser-startup failures are
re-raised. -/
theorem c9_error_containment :
    (∀ (url : Url) (responses : List CapturedResponse) (e : String),
      scrapePipeline url responses = .error e →
      scrape url responses =
        { url := url, products := [], product_count := 0, api_responses := none,
          pagination := none, next_page := none, raw_products := none,
          raw_subcategory := none, error := some e }) ∧
    (∀ (url : Url) (responses : List CapturedResponse) (r : PageResult),
      scrapePipeline url responses = .ok r → scrape url responses = r ∧ r.error = none) ∧
    (∀ e : String, startBrowser (.error e) = .error e) ∧
    (∀ b : BrowserHandle, startBrowser (.ok b) = .ok b) := by
  refine ⟨?_, ?_, fun e => rfl, fun b => rfl⟩
  · intro url responses e h
    simp [scrape, h]
  · intro url responses r h
    refine ⟨by simp [scrape, h], ?_⟩
    unfold scrapePipeline at h
    simp only [bind, Except.bind, pure, Except.pure] at h
    split at h
    all_goals try split at h
    all_goals try split at h
    all_goals cases h
    all_goals rfl

/-- C9 (witness): a concrete capture set whose merge raises (an unhashable
list-valued barcode) is contained as an error PageResult. -/
theorem c9_witness :
    scrape ⟨"https", "www.misuperfresh.com.gt", "/catalog/9", "", "page=2", ""⟩
      [⟨"https://msf-api.gta.com.gt/api/products", "POST", 200,
        Json.obj [("products", Json.arr
          [Json.obj [("barcode", Json.arr [Json.num 1]), ("name", Json.str "A")]])]⟩,
       ⟨"https://msf-api.gta.com.gt/api/products", "POST", 200,
        Json.obj [("products", Json.arr
          [Json.obj [("barcode", Json.arr [Json.num 1]), ("name", Json.str "A")]])]⟩] =
      { url := ⟨"https", "www.misuperfresh.com.gt", "/catalog/9", "", "page=2", ""⟩,
        products := [], product_count := 0, api_responses := none,
        pagination := none, next_page := none, raw_products := none,
        raw_subcategory := none, error := some "TypeError" } :=
  (c9_error_containment).1 _ _ "TypeError" (by decide)

/- ## Claim C10: handler accumulation across scrape calls -/

/-- Setup calls accumulate handlers starting from an empty buffer. -/
theorem iterateSetups_spec :
    ∀ (n h : Nat), iterateSetups n ⟨h, []⟩ = ⟨h + n, []⟩ := by
  intro n
  induction n with
  | zero => intro h; rfl
  | succ n ih =>
    intro h
    simp only [iterateSetups, setupApiInterception]
    rw [ih (h + 1)]
    have harith : h + 1 + n = h + (n + 1) := by omega
    rw [harith]

/-- Delivering a matching JSON response to `n` live handlers appends `n`
copies of the same captured record. -/
theorem applyHandlers_replicate (r : NetworkResponse) (b : Json)
    (hmatch : strContains r.url "msf-api.gta.com.gt" = true)
    (hjson : strContains r.contentType "application/json" = true ∨
      strContains (String.mk (r.contentType.data.map Char.toLower)) "json" = true)
    (hbody : r.body = some b) :
    ∀ (n : Nat) (buf : List CapturedResponse),
      applyHandlers r n buf =
        buf ++ List.replicate n ⟨r.url, r.method, r.status, b⟩ := by
  have hstep : ∀ buf, handleResponse buf r = buf ++ [⟨r.url, r.method, r.status, b⟩] := by
    intro buf
    rcases hjson with hj | hj <;> simp [handleResponse, hmatch, hj, hbody]
  intro n
  induction n with
  | zero => intro buf; simp [applyHandlers]
  | succ n ih =>
    intro buf
    simp only [applyHandlers]
    rw [hstep buf, ih]
    simp [List.replicate_succ, List.append_assoc]

/-- C10: each `scrape` call registers one more response handler while
resetting the buffer; after `n` calls `n` handlers are live, and a single
matching JSON network response is appended `n` times to the buffer. -/
theorem c10_handler_accumulation (n : Nat) (r : NetworkResponse) (b : Json)
    (hmatch : strContains r.url "msf-api.gta.com.gt" = true)
    (hjson : strContains r.contentType "application/json" = true ∨
      strContains (String.mk (r.contentType.data.map Char.toLower)) "json" = true)
    (hbody : r.body = some b) :
    (∀ s : InterceptState, (setupApiInterception s).handlers = s.handlers + 1 ∧
      (setupApiInterception s).apiResponses = []) ∧
    (iterateSetups n ⟨0, []⟩).handlers = n ∧
    (deliverResponse (iterateSetups n ⟨0, []⟩) r).apiResponses =
      List.replicate n ⟨r.url, r.method, r.status, b⟩ := by
  refine ⟨fun s => ⟨rfl, rfl⟩, ?_, ?_⟩
  · rw [iterateSetups_spec n 0]
    simp
  · rw [iterateSetups_spec n 0]
    simp only [deliverResponse, Nat.zero_add]
    rw [applyHandlers_replicate r b hmatch hjson hbody n []]
    simp

/-- C10 (witness): after two scrape setups, one matching response is
captured twice. -/
theorem c10_witness :
    (deliverResponse (iterateSetups 2 ⟨0, []⟩)
        ⟨"https://msf-api.gta.com.gt/api/products", "POST", 200, "application/json",
          some (Json.obj [("products", Json.arr [])])⟩).apiResponses =
      List.replicate 2 ⟨"https://msf-api.gta.com.gt/api/products", "POST", 200,
        Json.obj [("products", Json.arr [])]⟩ :=
  (c10_handler_accumulation 2
    ⟨"https://msf-api.gta.com.gt/api/products", "POST", 200, "application/json",
      some (Json.obj [("products", Json.arr [])])⟩
    (Json.obj [("products", Json.arr [])])
    (by decide) (Or.inl (by decide)) rfl).2.2
